import Mathlib

/-!
Verification of the parquet-importer streaming ingestion pipeline.

Shallow embedding of the pipeline implemented in `app.py` — the refreshed
version embedded in `recreate_project.py` (`PROJECT_FILES["app.py"]`), plus
the older variant kept as `src/app.py` where the two differ.  External
libraries (pyarrow, geopandas, shapely, the database engine) are modelled by
oracles passed as parameters: `fromWkb` models shapely WKB decoding of a
single byte string, `writeOk` models success of the k-th database write call,
`ProbeRead` models the outcome of the `gpd.read_parquet` probe.
-/

namespace ParquetImporter

/-- Conflict policy offered by the sidebar selectbox (`fail`, `replace`, `append`). -/
inductive IfExists
  | fail
  | replace
  | append
deriving DecidableEq, Repr

/-- Python exceptions distinguished by the embedding. -/
inductive RunError
  | decodeError    -- shapely WKB parsing failure while decoding a series
  | typeError      -- geopandas rejecting non-geometry values in set_geometry
  | unboundLocal   -- reading a local variable that was never assigned
  | seekError      -- source.seek(0) raising on a broken/closed handle
  | writeError     -- to_sql / to_postgis raising
deriving DecidableEq, Repr

/-- Pandas-level dtype of a column, as far as the code inspects it:
`object`, `category` and `string` are the dtypes routed to the
first-value inspection; everything else goes to the cast branch. -/
inductive DType
  | object
  | category
  | stringT
  | geometryT
  | otherT
deriving DecidableEq, Repr

/-- A value of a column cell as the code distinguishes them:
raw WKB bytes, an already-decoded geometry object (identified abstractly by a
tag), a string, a null, or any other scalar. -/
inductive GeoValue
  | bytes (wkb : List Nat)
  | geomObj (g : Nat)
  | strVal (s : String)
  | null
  | otherScalar (n : Nat)
deriving DecidableEq, Repr

/-- A dataframe column: name, dtype, cell values, and the coordinate
reference system the column itself carries when it is already
geometry-typed (`none` otherwise). -/
structure Column where
  name : String
  dtype : DType
  vals : List GeoValue
  crs : Option Nat
deriving DecidableEq, Repr

/-- A batch converted to a dataframe (`batch.to_pandas()`): its row count and
its columns. -/
structure RawChunk where
  nrows : Nat
  columns : List Column
deriving DecidableEq, Repr

/-- `name in df_chunk.columns` followed by `df_chunk[name]`. -/
def getCol (c : RawChunk) (name : String) : Option Column :=
  c.columns.find? (fun col => col.name == name)

/-- The geometry column of a normalized chunk: decoded geometry objects from
WKB, the raw values passed through undecoded, or a cast of an existing column
by name. -/
inductive GeoColumnData
  | decoded (gs : List (Option Nat))
  | rawVals (vs : List GeoValue)
  | cast (name : String)
deriving DecidableEq, Repr

/-- A chunk after normalization, ready for the sink write. -/
structure NormChunk where
  nrows : Nat
  isSpatial : Bool
  geoColumn : Option GeoColumnData
  crs : Option Nat
deriving DecidableEq, Repr

/-- Models `shapely` decoding of one value of the series handed to
`gpd.GeoSeries.from_wkb`: nulls map to a null geometry, bytes go through the
`fromWkb` oracle (`none` = malformed, raising `WKBReadingError`), anything
that is not bytes or null raises a type error. -/
def valueFromWkb (fromWkb : List Nat → Option Nat) : GeoValue → Except RunError (Option Nat)
  | .null => .ok none
  | .bytes b =>
    match fromWkb b with
    | some g => .ok (some g)
    | none => .error .decodeError
  | .geomObj _ => .error .typeError
  | .strVal _ => .error .typeError
  | .otherScalar _ => .error .typeError

/-- Models `gpd.GeoSeries.from_wkb(col_data)` over the whole column: the
first failing element aborts the call. -/
def seriesFromWkb (fromWkb : List Nat → Option Nat) :
    List GeoValue → Except RunError (List (Option Nat))
  | [] => .ok []
  | v :: vs =>
    match valueFromWkb fromWkb v, seriesFromWkb fromWkb vs with
    | .ok g, .ok gs => .ok (g :: gs)
    | .error e, _ => .error e
    | _, .error e => .error e

/-- `isinstance(first_val, bytes)` on `col_data.iloc[0] if len(col_data) > 0 else None`. -/
def isBytesVal : Option GeoValue → Bool
  | some (.bytes _) => true
  | _ => false

/-- Lines 146-158 of the embedded app: the decision whether to decode the
probe-detected geometry column as WKB, taken by inspecting only the first
value of the column. -/
def geometryObjects (fromWkb : List Nat → Option Nat) (vs : List GeoValue) :
    Except RunError GeoColumnData :=
  if isBytesVal vs.head? then
    match seriesFromWkb fromWkb vs with
    | .ok gs => .ok (GeoColumnData.decoded gs)
    | .error e => .error e
  else
    .ok (GeoColumnData.rawVals vs)

/-- A value geopandas accepts inside a column assigned as geometry. -/
def validSeriesVal : GeoValue → Bool
  | .geomObj _ => true
  | .null => true
  | _ => false

/-- Models the validation geopandas performs when a series is assigned as
the geometry of a GeoDataFrame (`gpd.GeoDataFrame(df, geometry=series)`):
a decoded WKB series is accepted, raw values are accepted only when every
element is a geometry object or null. -/
def setGeometryCheck : GeoColumnData → Except RunError GeoColumnData
  | .decoded gs => .ok (.decoded gs)
  | .rawVals vs => if vs.all validSeriesVal then .ok (.rawVals vs) else .error .typeError
  | .cast n => .ok (.cast n)

/-- Models `gpd.GeoDataFrame(df_chunk, geometry=<column name>)`: geopandas
validates that the named column holds geometry objects (or nulls) and raises
a type error otherwise. -/
def castGeoDataFrame (col : Column) : Except RunError GeoColumnData :=
  if col.vals.all validSeriesVal then .ok (.cast col.name) else .error .typeError

/-- `col.dtype == 'object' or col.dtype == 'category' or col.dtype == 'string'`. -/
def dtypeObjLike (d : DType) : Bool :=
  d == DType.object || d == DType.category || d == DType.stringT

/-- The coordinate reference system the freshly constructed GeoDataFrame
carries before any `set_crs` call: a column decoded from WKB or passed in as
a plain series has none; a cast of an already-geometry-typed column keeps the
column's own system. -/
def chunkOwnCrs (col : Column) : Option Nat :=
  if dtypeObjLike col.dtype then none else col.crs

/-- Lines 163-168 of the embedded app:
`if detected_crs: set_crs(detected_crs, allow_override=True)`
`elif gdf_chunk.crs is None: set_crs(epsg=4326)`. -/
def assignCrs (detected : Option Nat) (own : Option Nat) : Option Nat :=
  match detected with
  | some d => some d
  | none =>
    match own with
    | some c => some c
    | none => some 4326

/-- The geometry-column construction of the probe-detected spatial path
(Logic 1, lines 139-161 of the embedded app). -/
def logic1GeoColumn (fromWkb : List Nat → Option Nat) (col : Column) :
    Except RunError GeoColumnData :=
  if dtypeObjLike col.dtype then
    match geometryObjects fromWkb col.vals with
    | .ok objs => setGeometryCheck objs
    | .error e => .error e
  else
    castGeoDataFrame col

/-- The probe-detected spatial path of the embedded app (Logic 1,
lines 132-170): build the geometry column, then assign the coordinate
reference system. -/
def normalizeLogic1 (fromWkb : List Nat → Option Nat) (detectedCrs : Option Nat)
    (c : RawChunk) (col : Column) : Except RunError NormChunk :=
  match logic1GeoColumn fromWkb col with
  | .error e => .error e
  | .ok gcol =>
    .ok { nrows := c.nrows, isSpatial := true, geoColumn := some gcol,
          crs := assignCrs detectedCrs (chunkOwnCrs col) }

/-- The heuristic fallback of the embedded app (Logic 2, lines 172-179):
if a column literally named `geometry` exists, decode it as WKB and default
the reference system to EPSG:4326 (the fresh GeoDataFrame has none);
otherwise the chunk is non-spatial and written unchanged. -/
def heuristicDetect (fromWkb : List Nat → Option Nat) (c : RawChunk) :
    Except RunError NormChunk :=
  match getCol c "geometry" with
  | none => .ok { nrows := c.nrows, isSpatial := false, geoColumn := none, crs := none }
  | some col =>
    match seriesFromWkb fromWkb col.vals with
    | .error e => .error e
    | .ok gs =>
      .ok { nrows := c.nrows, isSpatial := true,
            geoColumn := some (GeoColumnData.decoded gs), crs := some 4326 }

/-- Outcome of the probe step (`recreate_project.py` app, lines 67-88). -/
structure Probe where
  isSpatialFile : Bool
  detectedCol : Option String
  detectedCrs : Option Nat
deriving DecidableEq, Repr

/-- The probe outcome when nothing was detected (all initial defaults kept). -/
def unknownProbe : Probe :=
  { isSpatialFile := false, detectedCol := none, detectedCrs := none }

/-- The per-chunk normalizer of the embedded (`recreate_project.py`) app,
lines 128-179: the probe-detected spatial path when the probe marked the file
spatial and its column is present in this chunk, else the heuristic fallback. -/
def normalizeChunk (fromWkb : List Nat → Option Nat) (probe : Probe) (c : RawChunk) :
    Except RunError NormChunk :=
  match probe.detectedCol with
  | some name =>
    if probe.isSpatialFile then
      match getCol c name with
      | some col => normalizeLogic1 fromWkb probe.detectedCrs c col
      | none => heuristicDetect fromWkb c
    else
      heuristicDetect fromWkb c
  | none => heuristicDetect fromWkb c

/-- The try/except geometry assignment of the older `src/app.py` normalizer
(lines 88-101): in the object/category branch it tries the WKB decode and a
bare `except:` swallows any failure, falling back to
`gpd.GeoDataFrame(df_chunk, geometry='geometry')`; in the other-dtype branch
the code is `pass`, leaving the local `gdf_chunk` whatever it was before
(`prior`; `none` if never assigned). -/
def appGeoAssign (fromWkb : List Nat → Option Nat) (prior : Option NormChunk)
    (c : RawChunk) (col : Column) : Except RunError (Option NormChunk) :=
  if col.dtype == DType.object || col.dtype == DType.category then
    match seriesFromWkb fromWkb col.vals with
    | .ok gs =>
      .ok (some { nrows := c.nrows, isSpatial := true,
                  geoColumn := some (GeoColumnData.decoded gs), crs := none })
    | .error _ =>
      match castGeoDataFrame col with
      | .ok g =>
        .ok (some { nrows := c.nrows, isSpatial := true,
                    geoColumn := some g, crs := col.crs })
      | .error e => .error e
  else
    .ok prior

/-- The per-chunk normalizer of the older `src/app.py` (lines 84-109):
after the geometry assignment, `gdf_chunk.crs` is read — a `NameError`
(unbound local) if no branch ever assigned `gdf_chunk`. -/
def appNormalizeChunk (fromWkb : List Nat → Option Nat) (prior : Option NormChunk)
    (c : RawChunk) : Except RunError NormChunk :=
  match getCol c "geometry" with
  | none => .ok { nrows := c.nrows, isSpatial := false, geoColumn := none, crs := none }
  | some col =>
    match appGeoAssign fromWkb prior c col with
    | .error e => .error e
    | .ok none => .error .unboundLocal
    | .ok (some gdf) =>
      .ok { gdf with
            isSpatial := true
            crs := (match gdf.crs with | some cc => some cc | none => some 4326) }

/-- Outcome of the external `gpd.read_parquet` call during the probe. -/
inductive ProbeRead
  | geo (activeCol : Option String) (crs : Option Nat)
  | plain
  | raises
deriving DecidableEq, Repr

/-- The source handle as the probe's except-branch sees it: whether it has a
`seek` attribute, and whether `seek(0)` succeeds when called. -/
structure SourceHandle where
  hasSeek : Bool
  seekOk : Bool
deriving DecidableEq, Repr

/-- `probe_gdf.active_geometry_name or 'geometry'` (Python `or` replaces a
falsy value — `None` or the empty string — by `'geometry'`). -/
def activeColOr (activeCol : Option String) : String :=
  match activeCol with
  | none => "geometry"
  | some s => if s == "" then "geometry" else s

/-- The probe step (`recreate_project.py` app, lines 67-88): on a successful
geo read the descriptor is recorded; a plain read leaves the defaults; if the
read raises, a seekable source is rewound with `source.seek(0)` — a rewind
that itself raises propagates out of the except block. -/
def probeStep (read : ProbeRead) (src : SourceHandle) : Except RunError Probe :=
  match read with
  | .geo activeCol crs =>
    .ok { isSpatialFile := true, detectedCol := some (activeColOr activeCol),
          detectedCrs := crs }
  | .plain => .ok unknownProbe
  | .raises =>
    if src.hasSeek then
      if src.seekOk then .ok unknownProbe else .error .seekError
    else
      .ok unknownProbe

/-- `total_rows = parquet_file.metadata.num_rows` followed by the fallback
`if total_rows and total_rows > 0: pass else: total_rows = 1`
(lines 104-110 of the embedded app). -/
def totalRowsEstimate : Option Nat → Nat
  | some n => if 0 < n then n else 1
  | none => 1

/-- State of the streaming loop's locals, plus the observable traces: the
effective policy of each write call, the cumulative row counts reported to
the status line after each chunk, and the divisor of each progress-bar
division performed. -/
structure LoopState where
  rowsProcessed : Nat
  isFirstChunk : Bool
  policyTrace : List IfExists
  progressEvents : List Nat
  divisors : List Nat
deriving DecidableEq, Repr

/-- Locals before the loop: `rows_processed = 0`, `is_first_chunk = True`. -/
def initState : LoopState :=
  { rowsProcessed := 0, isFirstChunk := true, policyTrace := [],
    progressEvents := [], divisors := [] }

/-- `current_if_exists = if_exists_opt if is_first_chunk else 'append'`. -/
def effPolicy (opt : IfExists) (isFirst : Bool) : IfExists :=
  if isFirst then opt else IfExists.append

/-- The state update after a successful write of a chunk of `n` rows:
`rows_processed += len(df_chunk)`, `is_first_chunk = False`, one progress-bar
division when `total_rows > 1`, and the status line report. -/
def advance (t : Nat) (n : Nat) (s : LoopState) : LoopState :=
  { rowsProcessed := s.rowsProcessed + n,
    isFirstChunk := false,
    policyTrace := s.policyTrace,
    progressEvents := s.progressEvents ++ [s.rowsProcessed + n],
    divisors := if 1 < t then s.divisors ++ [t] else s.divisors }

/-- The streaming loop of the embedded app (lines 115-197): normalize each
batch, choose the effective policy, call the sink write (the `writeOk` oracle
says whether the k-th call succeeds), then update the locals and report
progress.  Any raised error aborts the loop with the state as it stood. -/
def runFrom (fromWkb : List Nat → Option Nat) (probe : Probe) (opt : IfExists)
    (writeOk : Nat → Bool) (t : Nat) :
    LoopState → Nat → List RawChunk → LoopState × Option RunError
  | s, _, [] => (s, none)
  | s, k, c :: rest =>
    match normalizeChunk fromWkb probe c with
    | .error e => (s, some e)
    | .ok _ =>
      let s1 : LoopState :=
        { s with policyTrace := s.policyTrace ++ [effPolicy opt s.isFirstChunk] }
      if writeOk k then
        runFrom fromWkb probe opt writeOk t (advance t c.nrows s1) (k + 1) rest
      else
        (s1, some RunError.writeError)

/-- Result of one import run: the loop state at exit and the error that
aborted it, if any. -/
structure RunResult where
  state : LoopState
  err : Option RunError
deriving DecidableEq, Repr

/-- One import run of the embedded app: the probe step, the total-rows
estimate, then the streaming loop from the initial state. -/
def runImport (fromWkb : List Nat → Option Nat) (read : ProbeRead) (src : SourceHandle)
    (opt : IfExists) (writeOk : Nat → Bool) (metaRows : Option Nat)
    (batches : List RawChunk) : RunResult :=
  match probeStep read src with
  | .error e => { state := initState, err := some e }
  | .ok probe =>
    let r := runFrom fromWkb probe opt writeOk (totalRowsEstimate metaRows)
      initState 0 batches
    { state := r.1, err := r.2 }

/-- The values of the connection sidebar and the table-name field. -/
structure FormInput where
  dbHost : String
  dbPort : String
  dbName : String
  dbUser : String
  dbPassword : String
  tableName : String
deriving DecidableEq, Repr

/-- Outcome of pressing Start Import. -/
inductive RunOutcome
  | configError
  | noSource
  | ran (r : RunResult)
deriving DecidableEq, Repr

/-- The start-import flow of the embedded app (lines 42-55): the validation
gate `if not db_name or not db_user or not db_password`, then the source
check, then the run. -/
def startImport (f : FormInput) (sourcePresent : Bool)
    (fromWkb : List Nat → Option Nat) (read : ProbeRead) (src : SourceHandle)
    (opt : IfExists) (writeOk : Nat → Bool) (metaRows : Option Nat)
    (batches : List RawChunk) : RunOutcome :=
  if f.dbName == "" || f.dbUser == "" || f.dbPassword == "" then
    RunOutcome.configError
  else if sourcePresent then
    RunOutcome.ran (runImport fromWkb read src opt writeOk metaRows batches)
  else
    RunOutcome.noSource

/-- The rows written, when the outcome is a run. -/
def outcomeRows : RunOutcome → Option Nat
  | .ran r => some r.state.rowsProcessed
  | _ => none

/-- `Except` result viewed as a boolean. -/
def exceptOk {ε α : Type} : Except ε α → Bool
  | .ok _ => true
  | .error _ => false

/-- Cumulative sums starting from an accumulator. -/
def cumFrom (acc : Nat) : List Nat → List Nat
  | [] => []
  | n :: ns => (acc + n) :: cumFrom (acc + n) ns

/-- The effective policies of `n` write calls starting with flag `first`. -/
def policiesFrom (opt : IfExists) : Bool → Nat → List IfExists
  | _, 0 => []
  | first, Nat.succ n => effPolicy opt first :: policiesFrom opt false n

/-- A write oracle whose calls succeed strictly below index `M` and whose
call at index `M` fails. -/
def failAt (M : Nat) : Nat → Bool := fun j => decide (j < M)

/-- A geometry column holding a single malformed WKB byte string. -/
def malGeoColumn : Column :=
  { name := "geometry"
    dtype := DType.object
    vals := [GeoValue.bytes [0, 1, 2]]
    crs := none }

/-- A one-row chunk whose geometry cell is the malformed byte string. -/
def malChunk : RawChunk :=
  { nrows := 1, columns := [malGeoColumn] }

/-- A geometry column holding one well-formed WKB byte string. -/
def wkbGeoColumn : Column :=
  { name := "geometry"
    dtype := DType.object
    vals := [GeoValue.bytes [1]]
    crs := none }

/-- A one-row chunk carrying `wkbGeoColumn`. -/
def wkbChunk : RawChunk :=
  { nrows := 1, columns := [wkbGeoColumn] }

/-- A probe that detected the `geometry` column with EPSG:27700. -/
def probe27700 : Probe :=
  { isSpatialFile := true, detectedCol := some "geometry", detectedCrs := some 27700 }

/-- The normalized form of `wkbChunk` under `probe27700` with the decode
oracle returning geometry 0. -/
def normed27700 : NormChunk :=
  { nrows := 1
    isSpatial := true
    geoColumn := some (GeoColumnData.decoded [some 0])
    crs := some 27700 }

/-- A string-dtyped geometry column with a null in row 0 followed by bytes. -/
def nullThenBytesColumn : Column :=
  { name := "geometry"
    dtype := DType.stringT
    vals := [GeoValue.null, GeoValue.bytes [1]]
    crs := none }

/-- An empty object-dtyped geometry column. -/
def emptyGeoColumn : Column :=
  { name := "geometry", dtype := DType.object, vals := [], crs := none }

/-- A chunk whose `geometry` column has a non-object, non-category dtype. -/
def otherDtypeChunk : RawChunk :=
  { nrows := 4
    columns := [{ name := "geometry", dtype := DType.otherT, vals := [], crs := none }] }

/-- After the first write the flag is false, so every later policy is `append`. -/
theorem policiesFrom_false (opt : IfExists) (n : Nat) :
    policiesFrom opt false n = List.replicate n IfExists.append := by
  induction n with
  | zero => rfl
  | succ n ih => simp [policiesFrom, effPolicy, List.replicate_succ, ih]

/-- With the flag initially set, the first policy is the configured one. -/
theorem policiesFrom_true (opt : IfExists) (n : Nat) :
    policiesFrom opt true (n + 1) = opt :: List.replicate n IfExists.append := by
  simp [policiesFrom, effPolicy, policiesFrom_false]

theorem filter_replicate_append (n : Nat) :
    (List.replicate n IfExists.append).filter (fun p => p == IfExists.replace) = [] := by
  induction n with
  | zero => rfl
  | succ n ih => simp [List.replicate_succ, List.filter_cons, ih]

/-- Characterization of a fault-free pass of the streaming loop from an
arbitrary state: rows accumulate the batch sizes, the status line reports the
cumulative sums, the write calls use the configured policy once and `append`
afterwards, the first-chunk flag clears as soon as a batch is written, and
every progress-bar division uses the fixed estimate, only when it exceeds 1. -/
theorem runFrom_none_spec (fromWkb : List Nat → Option Nat) (probe : Probe)
    (opt : IfExists) (writeOk : Nat → Bool) (t : Nat) :
    ∀ (bs : List RawChunk) (s : LoopState) (k : Nat),
      (runFrom fromWkb probe opt writeOk t s k bs).2 = none →
      (runFrom fromWkb probe opt writeOk t s k bs).1.rowsProcessed
          = s.rowsProcessed + (bs.map RawChunk.nrows).sum ∧
      (runFrom fromWkb probe opt writeOk t s k bs).1.progressEvents
          = s.progressEvents ++ cumFrom s.rowsProcessed (bs.map RawChunk.nrows) ∧
      (runFrom fromWkb probe opt writeOk t s k bs).1.policyTrace
          = s.policyTrace ++ policiesFrom opt s.isFirstChunk bs.length ∧
      (runFrom fromWkb probe opt writeOk t s k bs).1.isFirstChunk
          = (s.isFirstChunk && bs.isEmpty) ∧
      (runFrom fromWkb probe opt writeOk t s k bs).1.divisors
          = s.divisors ++ (if 1 < t then List.replicate bs.length t else []) := by
  intro bs
  induction bs with
  | nil =>
    intro s k _
    simp [runFrom, cumFrom, policiesFrom]
  | cons c rest ih =>
    intro s k h
    cases hn : normalizeChunk fromWkb probe c with
    | error e =>
      rw [runFrom] at h
      simp [hn] at h
    | ok nc =>
      rw [runFrom] at h ⊢
      simp only [hn] at h ⊢
      cases hw : writeOk k with
      | false => simp [hw] at h
      | true =>
        simp only [hw, if_true] at h ⊢
        obtain ⟨ih1, ih2, ih3, ih4, ih5⟩ := ih _ _ h
        refine ⟨?_, ?_, ?_, ?_, ?_⟩
        · rw [ih1]
          simp [advance]
          omega
        · rw [ih2]
          simp [advance, cumFrom]
        · rw [ih3]
          simp [advance, policiesFrom]
        · rw [ih4]
          simp [advance]
        · rw [ih5]
          by_cases ht : 1 < t
          · simp [advance, ht, List.replicate_succ]
          · simp [advance, ht]

/-- Claim C1: in every fault-free import run with at least two batches, the
effective if-exists policy handed to the sink write call is the configured
conflict policy for the first chunk and `append` for every subsequent chunk,
regardless of the configured value; hence under policy `replace` at most one
write call (the first) carries `replace`. -/
theorem first_chunk_policy_only (fromWkb : List Nat → Option Nat) (probe : Probe)
    (opt : IfExists) (writeOk : Nat → Bool) (t : Nat) (bs : List RawChunk)
    (hlen : 2 ≤ bs.length)
    (hok : (runFrom fromWkb probe opt writeOk t initState 0 bs).2 = none) :
    (runFrom fromWkb probe opt writeOk t initState 0 bs).1.policyTrace
        = opt :: List.replicate (bs.length - 1) IfExists.append ∧
    ((runFrom fromWkb probe opt writeOk t initState 0 bs).1.policyTrace.filter
        (fun p => p == IfExists.replace)).length ≤ 1 := by
  obtain ⟨-, -, h3, -, -⟩ := runFrom_none_spec fromWkb probe opt writeOk t bs initState 0 hok
  obtain ⟨m, hm⟩ : ∃ m, bs.length = m + 1 := ⟨bs.length - 1, by omega⟩
  have htrace : (runFrom fromWkb probe opt writeOk t initState 0 bs).1.policyTrace
      = opt :: List.replicate (bs.length - 1) IfExists.append := by
    rw [h3, hm]
    simp [initState, policiesFrom_true]
  refine ⟨htrace, ?_⟩
  rw [htrace]
  rw [List.filter_cons]
  by_cases hr : (opt == IfExists.replace) = true
  · simp [hr, filter_replicate_append]
  · simp [hr, filter_replicate_append]

/-- Witness for C1: two non-spatial batches under `replace` give the write
calls the policies `replace` then `append`. -/
theorem first_chunk_policy_only_witness :
    (runFrom (fun _ => none) unknownProbe IfExists.replace (fun _ => true) 12
        initState 0 [⟨5, []⟩, ⟨7, []⟩]).1.policyTrace
      = [IfExists.replace, IfExists.append] := by
  have h := first_chunk_policy_only (fun _ => none) unknownProbe IfExists.replace
    (fun _ => true) 12 [⟨5, []⟩, ⟨7, []⟩] (by decide) (by rfl)
  exact h.1.trans (by decide)

/-- The cumulative sums dominate their accumulator. -/
theorem cumFrom_head_le (acc : Nat) (ns : List Nat) :
    ∀ x ∈ (cumFrom acc ns).head?, acc ≤ x := by
  cases ns with
  | nil => simp [cumFrom]
  | cons n ns =>
    simp [cumFrom]

/-- The cumulative sums never decrease. -/
theorem cumFrom_chain (ns : List Nat) :
    ∀ acc, List.Chain' (fun a b => a ≤ b) (cumFrom acc ns) := by
  induction ns with
  | nil =>
    intro acc
    simp [cumFrom]
  | cons n ns ih =>
    intro acc
    rw [cumFrom, List.chain'_cons']
    exact ⟨fun x hx => cumFrom_head_le (acc + n) ns x hx, ih _⟩

/-- Claim C2: in every fault-free run, the cumulative `rows_processed`
reported after each chunk equals the sum of the row counts of the batches
processed so far (hence the reports never decrease), and the terminal success
message reports exactly the total sum. -/
theorem progress_reports_cumulative_sums (fromWkb : List Nat → Option Nat)
    (probe : Probe) (opt : IfExists) (writeOk : Nat → Bool) (t : Nat)
    (bs : List RawChunk)
    (hok : (runFrom fromWkb probe opt writeOk t initState 0 bs).2 = none) :
    (runFrom fromWkb probe opt writeOk t initState 0 bs).1.progressEvents
        = cumFrom 0 (bs.map RawChunk.nrows) ∧
    (runFrom fromWkb probe opt writeOk t initState 0 bs).1.rowsProcessed
        = (bs.map RawChunk.nrows).sum ∧
    List.Chain' (fun a b => a ≤ b)
        ((runFrom fromWkb probe opt writeOk t initState 0 bs).1.progressEvents) := by
  obtain ⟨h1, h2, -, -, -⟩ := runFrom_none_spec fromWkb probe opt writeOk t bs initState 0 hok
  refine ⟨?_, ?_, ?_⟩
  · rw [h2]
    simp [initState]
  · rw [h1]
    simp [initState]
  · rw [h2]
    simp only [initState]
    exact cumFrom_chain _ _

/-- Witness for C2: three non-spatial batches of sizes 50000, 50000 and 7
report the cumulative totals 50000, 100000, 100007 and a final count of
100007. -/
theorem progress_reports_cumulative_sums_witness :
    (runFrom (fun _ => none) unknownProbe IfExists.append (fun _ => true) 100007
        initState 0 [⟨50000, []⟩, ⟨50000, []⟩, ⟨7, []⟩]).1.progressEvents
      = [50000, 100000, 100007] ∧
    (runFrom (fun _ => none) unknownProbe IfExists.append (fun _ => true) 100007
        initState 0 [⟨50000, []⟩, ⟨50000, []⟩, ⟨7, []⟩]).1.rowsProcessed
      = 100007 := by
  have h := progress_reports_cumulative_sums (fun _ => none) unknownProbe
    IfExists.append (fun _ => true) 100007 [⟨50000, []⟩, ⟨50000, []⟩, ⟨7, []⟩] (by rfl)
  exact ⟨h.1.trans (by rfl), h.2.1.trans (by rfl)⟩

/-- Characterization of a pass of the streaming loop whose `m`-th write call
(counting from the loop position `k`) fails, all earlier calls succeeding:
the loop aborts with the write error; the rows counted are exactly those of
the fully written chunks; the first-chunk flag has cleared iff at least one
write succeeded; the policy trace covers the `m + 1` calls that were made. -/
theorem runFrom_failAt_spec (fromWkb : List Nat → Option Nat) (probe : Probe)
    (opt : IfExists) (t : Nat) :
    ∀ (bs : List RawChunk) (m : Nat) (s : LoopState) (k : Nat),
      m < bs.length →
      (∀ b ∈ bs.take (m + 1), exceptOk (normalizeChunk fromWkb probe b) = true) →
      (runFrom fromWkb probe opt (failAt (k + m)) t s k bs).2 = some RunError.writeError ∧
      (runFrom fromWkb probe opt (failAt (k + m)) t s k bs).1.rowsProcessed
          = s.rowsProcessed + ((bs.take m).map RawChunk.nrows).sum ∧
      (runFrom fromWkb probe opt (failAt (k + m)) t s k bs).1.isFirstChunk
          = (s.isFirstChunk && decide (m = 0)) ∧
      (runFrom fromWkb probe opt (failAt (k + m)) t s k bs).1.policyTrace
          = s.policyTrace ++ policiesFrom opt s.isFirstChunk (m + 1) := by
  intro bs
  induction bs with
  | nil =>
    intro m s k hm _
    simp at hm
  | cons c rest ih =>
    intro m s k hm hnorm
    have hc : exceptOk (normalizeChunk fromWkb probe c) = true := by
      apply hnorm
      rw [List.take_succ_cons]
      exact List.mem_cons_self c _
    obtain ⟨nc, hn⟩ : ∃ nc, normalizeChunk fromWkb probe c = Except.ok nc := by
      cases hx : normalizeChunk fromWkb probe c with
      | error e => rw [hx] at hc; simp [exceptOk] at hc
      | ok nc => exact ⟨nc, rfl⟩
    cases m with
    | zero =>
      have hfail : failAt (k + 0) k = false := by
        simp [failAt]
      rw [runFrom]
      simp only [hn, hfail, Bool.false_eq_true, if_false]
      refine ⟨by simp, by simp, by simp, by simp [policiesFrom]⟩
    | succ m' =>
      have hsucc : failAt (k + (m' + 1)) k = true := by
        simp [failAt]
      have harg : k + (m' + 1) = (k + 1) + m' := by omega
      rw [runFrom]
      simp only [hn, hsucc, if_true]
      rw [harg]
      obtain ⟨ih1, ih2, ih3, ih4⟩ := ih m' (advance t c.nrows
          { s with policyTrace := s.policyTrace ++ [effPolicy opt s.isFirstChunk] })
          (k + 1) (by simpa using Nat.lt_of_succ_lt_succ (Nat.succ_lt_succ_iff.mpr hm))
          (by
            intro b hb
            apply hnorm
            rw [List.take_succ_cons]
            exact List.mem_cons_of_mem c hb)
      refine ⟨ih1, ?_, ?_, ?_⟩
      · rw [ih2]
        simp [advance, List.take_succ_cons]
        omega
      · rw [ih3]
        simp [advance]
      · rw [ih4]
        simp [advance, policiesFrom]

/-- Claim C9: `rows_processed` is incremented and `is_first_chunk` cleared
only after the chunk's write call returns: when the write at index `m` fails
(all earlier ones succeeding), the run aborts with the write error, the last
reported `rows_processed` is exactly the total size of the `m` previously,
fully written chunks, the first-chunk flag has cleared iff some write
succeeded (it transitions true→false exactly once, on the first successful
write), and a failed first write was issued with the configured policy, the
flag still set. -/
theorem rows_and_flag_updated_after_write (fromWkb : List Nat → Option Nat)
    (probe : Probe) (opt : IfExists) (t : Nat) (bs : List RawChunk) (m : Nat)
    (hm : m < bs.length)
    (hnorm : ∀ b ∈ bs.take (m + 1), exceptOk (normalizeChunk fromWkb probe b) = true) :
    (runFrom fromWkb probe opt (failAt m) t initState 0 bs).2
        = some RunError.writeError ∧
    (runFrom fromWkb probe opt (failAt m) t initState 0 bs).1.rowsProcessed
        = ((bs.take m).map RawChunk.nrows).sum ∧
    (runFrom fromWkb probe opt (failAt m) t initState 0 bs).1.isFirstChunk
        = decide (m = 0) ∧
    (runFrom fromWkb probe opt (failAt m) t initState 0 bs).1.policyTrace
        = opt :: List.replicate m IfExists.append := by
  have h := runFrom_failAt_spec fromWkb probe opt t bs m initState 0 hm hnorm
  rw [Nat.zero_add] at h
  obtain ⟨h1, h2, h3, h4⟩ := h
  refine ⟨h1, by simpa [initState] using h2, by simpa [initState] using h3, ?_⟩
  rw [h4]
  simp [initState, policiesFrom_true]

/-- Witness for C9: two non-spatial batches of sizes 5 and 7 with the second
write failing — the run aborts with the write error, 5 rows were counted, the
flag has cleared, and the calls used `replace` then `append`. -/
theorem rows_and_flag_updated_after_write_witness :
    (runFrom (fun _ => none) unknownProbe IfExists.replace (failAt 1) 12
        initState 0 [⟨5, []⟩, ⟨7, []⟩]).2 = some RunError.writeError ∧
    (runFrom (fun _ => none) unknownProbe IfExists.replace (failAt 1) 12
        initState 0 [⟨5, []⟩, ⟨7, []⟩]).1.rowsProcessed = 5 ∧
    (runFrom (fun _ => none) unknownProbe IfExists.replace (failAt 1) 12
        initState 0 [⟨5, []⟩, ⟨7, []⟩]).1.isFirstChunk = false ∧
    (runFrom (fun _ => none) unknownProbe IfExists.replace (failAt 1) 12
        initState 0 [⟨5, []⟩, ⟨7, []⟩]).1.policyTrace
      = [IfExists.replace, IfExists.append] := by
  have h := rows_and_flag_updated_after_write (fun _ => none) unknownProbe
    IfExists.replace 12 [⟨5, []⟩, ⟨7, []⟩] 1 (by decide) (by decide)
  exact ⟨h.1, h.2.1.trans (by rfl), h.2.2.1.trans (by rfl), h.2.2.2.trans (by rfl)⟩

/-- Counterexample to C3 as stated: in `src/app.py` the WKB decode failure on
malformed geometry bytes is caught by the bare `except:` and swallowed into
the fallback path (assigning the raw column as geometry), which fails with a
type error — not the geometry-decode error the claim requires to propagate. -/
theorem malformed_wkb_swallowed_in_src_app :
    appNormalizeChunk (fun _ => none) none malChunk
      = Except.error RunError.typeError ∧
    (Except.error RunError.typeError : Except RunError NormChunk)
      ≠ Except.error RunError.decodeError := by
  refine ⟨rfl, ?_⟩
  intro h
  simp at h

/-- Claim C3 amended: in the `recreate_project.py` pipeline, a batch whose
geometry column fails WKB decoding raises the decode error, which propagates
through the normalizer and aborts the streaming loop with no per-row skip and
no rows counted from the failing batch; in `src/app.py` the same failure is
instead swallowed by a bare `except:` into the fallback path. -/
theorem malformed_wkb_aborts_run (fromWkb : List Nat → Option Nat)
    (c : RawChunk) (col : Column) (rest : List RawChunk) (opt : IfExists)
    (writeOk : Nat → Bool) (t : Nat)
    (hcol : getCol c "geometry" = some col)
    (hdec : seriesFromWkb fromWkb col.vals = Except.error RunError.decodeError) :
    normalizeChunk fromWkb unknownProbe c = Except.error RunError.decodeError ∧
    (runFrom fromWkb unknownProbe opt writeOk t initState 0 (c :: rest)).2
        = some RunError.decodeError ∧
    (runFrom fromWkb unknownProbe opt writeOk t initState 0
        (c :: rest)).1.rowsProcessed = 0 := by
  have hn : normalizeChunk fromWkb unknownProbe c = Except.error RunError.decodeError := by
    show heuristicDetect fromWkb c = _
    simp only [heuristicDetect, hcol, hdec]
  refine ⟨hn, ?_, ?_⟩
  · rw [runFrom]
    simp [hn]
  · rw [runFrom]
    simp [hn, initState]

/-- Witness for the amended C3: a one-row batch whose geometry cell is
malformed WKB aborts a one-batch run with the decode error and zero rows. -/
theorem malformed_wkb_aborts_run_witness :
    normalizeChunk (fun _ => none) unknownProbe malChunk
      = Except.error RunError.decodeError ∧
    (runFrom (fun _ => none) unknownProbe IfExists.append (fun _ => true) 1
        initState 0 [malChunk]).2 = some RunError.decodeError := by
  have h := malformed_wkb_aborts_run (fun _ => none) malChunk malGeoColumn
    [] IfExists.append (fun _ => true) 1 (by rfl) (by rfl)
  exact ⟨h.1, h.2.1⟩

/-- Claim C4: for a chunk on the probe-detected spatial path, the assigned
coordinate reference system is the prober's system whenever one was detected
(forced override); otherwise the chunk's own system is preserved when
present, and EPSG:4326 is assigned when the chunk has none. -/
theorem crs_assignment_probe_detected (fromWkb : List Nat → Option Nat)
    (probe : Probe) (name : String) (c : RawChunk) (col : Column) (r : NormChunk)
    (hname : probe.detectedCol = some name)
    (hsp : probe.isSpatialFile = true)
    (hcol : getCol c name = some col)
    (hok : normalizeChunk fromWkb probe c = Except.ok r) :
    r.crs = assignCrs probe.detectedCrs (chunkOwnCrs col) ∧
    (∀ d own, assignCrs (some d) own = some d) ∧
    (∀ cc, assignCrs none (some cc) = some cc) ∧
    assignCrs none none = some 4326 := by
  refine ⟨?_, fun d own => rfl, fun cc => rfl, rfl⟩
  rw [normalizeChunk] at hok
  simp only [hname, hsp, if_true, hcol] at hok
  rw [normalizeLogic1] at hok
  cases hg : logic1GeoColumn fromWkb col with
  | error e =>
    rw [hg] at hok
    exact absurd hok (by simp)
  | ok g =>
    rw [hg] at hok
    injection hok with h
    rw [← h]

/-- Witness for C4: a detected EPSG:27700 system overrides and is assigned to
the decoded chunk. -/
theorem crs_assignment_probe_detected_witness :
    normalizeChunk (fun _ => some 0) probe27700 wkbChunk = Except.ok normed27700 ∧
    normed27700.crs = some 27700 := by
  have h := crs_assignment_probe_detected (fun _ => some 0) probe27700
    "geometry" wkbChunk wkbGeoColumn normed27700 rfl rfl (by rfl) (by rfl)
  exact ⟨by rfl, h.1.trans (by rfl)⟩

/-- Counterexample to C5 as stated: with a seekable source whose rewind
raises, a probe failure is not tolerated — the run aborts with the seek
error before any batch is written, zero rows processed. -/
theorem probe_rewind_failure_aborts :
    probeStep ProbeRead.raises { hasSeek := true, seekOk := false }
      = Except.error RunError.seekError ∧
    (runImport (fun _ => none) ProbeRead.raises { hasSeek := true, seekOk := false }
        IfExists.append (fun _ => true) (some 5) [{ nrows := 3, columns := [] }]).err
      = some RunError.seekError ∧
    (runImport (fun _ => none) ProbeRead.raises { hasSeek := true, seekOk := false }
        IfExists.append (fun _ => true) (some 5)
        [{ nrows := 3, columns := [] }]).state.rowsProcessed = 0 :=
  ⟨rfl, rfl, rfl⟩

/-- Claim C5 amended: on any probe failure the probe returns "unknown" and
the normalizer proceeds to per-batch heuristic detection; if the source is
seekable the probe attempts to rewind it, and only the absence of seek
support is tolerated silently — a rewind that itself raises aborts the run. -/
theorem probe_failure_degrades_to_heuristic (src : SourceHandle)
    (fromWkb : List Nat → Option Nat) (c : RawChunk) :
    (src.hasSeek = false → probeStep ProbeRead.raises src = Except.ok unknownProbe) ∧
    (src.seekOk = true → probeStep ProbeRead.raises src = Except.ok unknownProbe) ∧
    (src.hasSeek = true → src.seekOk = false →
        probeStep ProbeRead.raises src = Except.error RunError.seekError) ∧
    normalizeChunk fromWkb unknownProbe c = heuristicDetect fromWkb c := by
  refine ⟨?_, ?_, ?_, rfl⟩
  · intro h
    simp [probeStep, h]
  · intro h
    simp [probeStep, h]
  · intro h1 h2
    simp [probeStep, h1, h2]

/-- Witness for the amended C5: a probe failure on a non-seekable source
yields the unknown probe, and the normalizer on the unknown probe is exactly
the heuristic detector. -/
theorem probe_failure_degrades_to_heuristic_witness :
    probeStep ProbeRead.raises { hasSeek := false, seekOk := false }
      = Except.ok unknownProbe ∧
    normalizeChunk (fun _ => none) unknownProbe { nrows := 2, columns := [] }
      = heuristicDetect (fun _ => none) { nrows := 2, columns := [] } := by
  have h := probe_failure_degrades_to_heuristic { hasSeek := false, seekOk := false }
    (fun _ => none) { nrows := 2, columns := [] }
  exact ⟨h.1 rfl, h.2.2.2⟩

/-- Counterexample to C6 as stated: an invocation with an empty table name
(and all database fields present) passes the validation gate — no
configuration error is raised and the run starts and writes rows. -/
theorem missing_table_name_not_validated :
    outcomeRows (startImport
        { dbHost := "h", dbPort := "5432", dbName := "db", dbUser := "u",
          dbPassword := "pw", tableName := "" } true (fun _ => none)
        ProbeRead.plain { hasSeek := false, seekOk := true } IfExists.append
        (fun _ => true) (some 3) [{ nrows := 3, columns := [] }]) = some 3 ∧
    startImport
        { dbHost := "h", dbPort := "5432", dbName := "db", dbUser := "u",
          dbPassword := "pw", tableName := "" } true (fun _ => none)
        ProbeRead.plain { hasSeek := false, seekOk := true } IfExists.append
        (fun _ => true) (some 3) [{ nrows := 3, columns := [] }]
      ≠ RunOutcome.configError := by
  have h : outcomeRows (startImport
      { dbHost := "h", dbPort := "5432", dbName := "db", dbUser := "u",
        dbPassword := "pw", tableName := "" } true (fun _ => none)
      ProbeRead.plain { hasSeek := false, seekOk := true } IfExists.append
      (fun _ => true) (some 3) [{ nrows := 3, columns := [] }]) = some 3 := by rfl
  refine ⟨h, fun hc => ?_⟩
  rw [hc] at h
  exact Option.noConfusion h

/-- Claim C6 amended: an invocation missing the database name, the username
or the password fails the validation gate with a configuration error before
any I/O — the run never starts; the table name (and host/port) are not
validated. -/
theorem missing_db_params_fail_before_io (f : FormInput) (sourcePresent : Bool)
    (fromWkb : List Nat → Option Nat) (read : ProbeRead) (src : SourceHandle)
    (opt : IfExists) (writeOk : Nat → Bool) (metaRows : Option Nat)
    (batches : List RawChunk)
    (h : f.dbName = "" ∨ f.dbUser = "" ∨ f.dbPassword = "") :
    startImport f sourcePresent fromWkb read src opt writeOk metaRows batches
      = RunOutcome.configError := by
  have hb : (f.dbName == "" || f.dbUser == "" || f.dbPassword == "") = true := by
    rcases h with h | h | h <;> simp [h]
  rw [startImport, hb]
  simp

/-- Witness for the amended C6: an empty username is rejected before the run. -/
theorem missing_db_params_fail_before_io_witness :
    startImport
        { dbHost := "h", dbPort := "5432", dbName := "db", dbUser := "",
          dbPassword := "pw", tableName := "t" } true (fun _ => none)
        ProbeRead.plain { hasSeek := false, seekOk := true } IfExists.append
        (fun _ => true) (some 3) [{ nrows := 3, columns := [] }]
      = RunOutcome.configError :=
  missing_db_params_fail_before_io _ _ _ _ _ _ _ _ _ (Or.inr (Or.inl rfl))

/-- Every divisor recorded during a pass of the loop is the fixed estimate,
recorded only when it exceeds one. -/
theorem runFrom_divisors_mem (fromWkb : List Nat → Option Nat) (probe : Probe)
    (opt : IfExists) (writeOk : Nat → Bool) (t : Nat) :
    ∀ (bs : List RawChunk) (s : LoopState) (k : Nat) (d : Nat),
      d ∈ (runFrom fromWkb probe opt writeOk t s k bs).1.divisors →
      d ∈ s.divisors ∨ (d = t ∧ 1 < t) := by
  intro bs
  induction bs with
  | nil =>
    intro s k d hd
    rw [runFrom] at hd
    exact Or.inl hd
  | cons c rest ih =>
    intro s k d hd
    rw [runFrom] at hd
    cases hn : normalizeChunk fromWkb probe c with
    | error e =>
      simp only [hn] at hd
      exact Or.inl hd
    | ok nc =>
      simp only [hn] at hd
      cases hw : writeOk k with
      | false =>
        simp only [hw, Bool.false_eq_true, if_false] at hd
        exact Or.inl hd
      | true =>
        simp only [hw, if_true] at hd
        rcases ih _ _ _ hd with hmem | hret
        · by_cases ht : 1 < t
          · simp only [advance, ht, if_true] at hmem
            rcases List.mem_append.mp hmem with h1 | h1
            · exact Or.inl h1
            · exact Or.inr ⟨List.mem_singleton.mp h1, ht⟩
          · simp only [advance, ht, if_false] at hmem
            exact Or.inl hmem
        · exact Or.inr hret

/-- Claim C7: a zero or absent source-reported row count makes the total-rows
estimate 1; a positive count is kept as the estimate for the whole stream;
and every progress-bar division performed during any run divides by the
fixed estimate, which is then strictly greater than 1 — never zero. -/
theorem total_rows_estimate_guards_division (metaRows : Option Nat)
    (fromWkb : List Nat → Option Nat) (read : ProbeRead) (src : SourceHandle)
    (opt : IfExists) (writeOk : Nat → Bool) (bs : List RawChunk) :
    (metaRows = none ∨ metaRows = some 0 → totalRowsEstimate metaRows = 1) ∧
    (∀ n, 0 < n → totalRowsEstimate (some n) = n) ∧
    (∀ d ∈ (runImport fromWkb read src opt writeOk metaRows bs).state.divisors,
        d = totalRowsEstimate metaRows ∧ 1 < d) := by
  refine ⟨?_, ?_, ?_⟩
  · rintro (h | h) <;> simp [h, totalRowsEstimate]
  · intro n hn
    simp [totalRowsEstimate, hn]
  · intro d hd
    rw [runImport] at hd
    cases hp : probeStep read src with
    | error e =>
      simp only [hp, initState] at hd
      simp at hd
    | ok probe =>
      simp only [hp] at hd
      rcases runFrom_divisors_mem fromWkb probe opt writeOk
          (totalRowsEstimate metaRows) bs initState 0 d hd with hmem | hret
      · simp [initState] at hmem
      · exact ⟨hret.1, hret.1 ▸ hret.2⟩

/-- Witness for C7: a reported count of 0 estimates to 1; a reported count of
7 is kept and is the divisor of the single division of a one-batch run. -/
theorem total_rows_estimate_guards_division_witness :
    totalRowsEstimate (some 0) = 1 ∧ (7 = totalRowsEstimate (some 7) ∧ 1 < 7) := by
  have h0 := total_rows_estimate_guards_division (some 0) (fun _ => none)
    ProbeRead.plain { hasSeek := false, seekOk := true } IfExists.append
    (fun _ => true) []
  have h7 := total_rows_estimate_guards_division (some 7) (fun _ => none)
    ProbeRead.plain { hasSeek := false, seekOk := true } IfExists.append
    (fun _ => true) [{ nrows := 3, columns := [] }]
  refine ⟨h0.1 (Or.inr rfl), ?_⟩
  have hm : 7 ∈ (runImport (fun _ => none) ProbeRead.plain
      { hasSeek := false, seekOk := true } IfExists.append (fun _ => true)
      (some 7) [{ nrows := 3, columns := [] }]).state.divisors := by
    simp [runImport, probeStep, runFrom, normalizeChunk, unknownProbe,
      heuristicDetect, getCol, totalRowsEstimate, advance, initState]
  exact h7.2.2 7 hm

/-- Claim C8: in `src/app.py`, a first spatial batch whose `geometry` column
has a dtype other than object or category takes the branch that only
executes `pass`, so the following read of `gdf_chunk.crs` hits a local that
was never assigned and the run aborts with an unbound-name error instead of
passing the chunk through unchanged. -/
theorem unbound_gdf_chunk_on_nonobject_dtype (fromWkb : List Nat → Option Nat)
    (c : RawChunk) (col : Column)
    (hcol : getCol c "geometry" = some col)
    (h1 : col.dtype ≠ DType.object) (h2 : col.dtype ≠ DType.category) :
    appNormalizeChunk fromWkb none c = Except.error RunError.unboundLocal := by
  have hd : (col.dtype == DType.object || col.dtype == DType.category) = false := by
    cases hdt : col.dtype <;> simp_all
  rw [appNormalizeChunk]
  simp only [hcol, appGeoAssign, hd, Bool.false_eq_true, if_false]

/-- Witness for C8: a `geometry` column of a non-object dtype aborts the
src/app.py normalizer with the unbound-local error. -/
theorem unbound_gdf_chunk_on_nonobject_dtype_witness :
    appNormalizeChunk (fun _ => none) none otherDtypeChunk
      = Except.error RunError.unboundLocal :=
  unbound_gdf_chunk_on_nonobject_dtype (fun _ => none) _ _ (by rfl)
    (by decide) (by decide)

/-- Claim C10: in the probe-detected spatial path, the decision to decode
well-known-binary inspects only the first value of the geometry column: for
an object/category/string-dtyped column whose first value is not a bytes
object (a null in row 0, or an empty batch), the entire column is passed
through undecoded — even when later values are WKB byte strings — and handed
raw to the GeoDataFrame constructor. -/
theorem first_value_only_decode_decision (fromWkb : List Nat → Option Nat)
    (col : Column) (h : isBytesVal col.vals.head? = false)
    (hd : dtypeObjLike col.dtype = true) :
    geometryObjects fromWkb col.vals = Except.ok (GeoColumnData.rawVals col.vals) ∧
    logic1GeoColumn fromWkb col = setGeometryCheck (GeoColumnData.rawVals col.vals) := by
  have h1 : geometryObjects fromWkb col.vals
      = Except.ok (GeoColumnData.rawVals col.vals) := by
    rw [geometryObjects, h]
    simp
  refine ⟨h1, ?_⟩
  rw [logic1GeoColumn, hd]
  simp only [if_true, h1]

/-- Witness for C10: a column with a null in row 0 followed by a decodable
WKB byte string is passed through entirely undecoded. -/
theorem first_value_only_decode_decision_witness :
    geometryObjects (fun _ => some 0) [GeoValue.null, GeoValue.bytes [1]]
      = Except.ok (GeoColumnData.rawVals [GeoValue.null, GeoValue.bytes [1]]) ∧
    geometryObjects (fun _ => some 0) ([] : List GeoValue)
      = Except.ok (GeoColumnData.rawVals []) := by
  have ha := first_value_only_decode_decision (fun _ => some 0)
    nullThenBytesColumn (by rfl) (by rfl)
  have hb := first_value_only_decode_decision (fun _ => some 0)
    emptyGeoColumn (by rfl) (by rfl)
  exact ⟨ha.1, hb.1⟩

end ParquetImporter
